import Mathlib

/-!
Verification of the ranking and data-fusion core of the ui-ux-pro-max skill.

The development shallowly embeds the two algorithmic components of the
repository:

* the BM25 search engine of `scripts/core.py` (class `BM25`, the
  `_search_csv` / `_search_data_list` pipelines, `detect_domain`, `search`,
  `search_stack`), and
* the merge / conflict-resolution procedure of `scripts/config_loader.py`
  (`ConfigLoader._merge_with_conflict_resolution`, `_generate_item_key`,
  `_detect_field_conflicts`, `_calculate_key_similarity`).

Modelling conventions:

* Python strings are Lean `String`; the Unicode classes `\w` / `\s` of the
  `re` module, and `str.lower` / `str.strip`, are modelled on the ASCII
  fragment actually exercised by the data (via `Char.isAlphanum`,
  `Char.isWhitespace`, `Char.toLower`); a CSV row (a Python dict of
  string fields) is an ordered association list `Record`.
* Python float arithmetic is modelled exactly: merge similarity ratios in
  `ℚ`, BM25 scores in `ℝ` with `Real.log` for `math.log`.
* Python `sorted(key=..., reverse=True)` (a stable sort) is modelled by the
  stable insertion sort `sortRankedDesc`.
* File-system access is abstracted by a lookup function
  `dataOf : String → Option (List Record)` mapping a file name to its rows
  when the file exists.
-/

/-! ## Python value model for the tokenizer input -/

/-- Model of the Python values that may reach `BM25.tokenize`: a string, the
value `None`, or an integer. -/
inductive PyVal where
  | pyStr (s : String)
  | pyNone
  | pyInt (n : Int)
deriving DecidableEq

/-- Model of Python `str(...)` on the values above: a string is unchanged,
`str(None)` is the text `None`, and an integer prints in decimal. -/
def pyValStr : PyVal → String
  | .pyStr s => s
  | .pyNone => "None"
  | .pyInt n => toString n

/-! ## Tokenizer (`BM25.tokenize`, core.py lines 139-142) -/

/-- Model of the regex class `\w` (word character) on the ASCII fragment:
a letter, a digit, or an underscore. -/
def isPyWordChar (c : Char) : Bool := c.isAlphanum || c == '_'

/-- Model of the regex class `\s` (whitespace) on the ASCII fragment. -/
def isPySpaceChar (c : Char) : Bool := c.isWhitespace

/-- Helper for `wsSplit`: accumulates the current (reversed) token in `acc`
while scanning the character list, closing a token at each whitespace run,
exactly as Python `str.split()` with no separator does. -/
def wsSplitAux : List Char → List Char → List (List Char)
  | [], acc => if acc.isEmpty then [] else [acc.reverse]
  | c :: cs, acc =>
    if isPySpaceChar c then
      if acc.isEmpty then wsSplitAux cs [] else acc.reverse :: wsSplitAux cs []
    else
      wsSplitAux cs (c :: acc)

/-- Model of Python `str.split()` (split on whitespace runs, no empty
pieces) at the character-list level. -/
def wsSplit (cs : List Char) : List (List Char) := wsSplitAux cs []

/-- Embedding of `BM25.tokenize` on an input that is already a string:
lowercase, replace every character that is neither a word character nor
whitespace by a space (`re.sub(r'[^\w\s]', ' ', ...)`), split on
whitespace, and keep only tokens of length greater than 2. -/
def tokenizeStr (text : String) : List String :=
  let lowered := text.toList.map Char.toLower
  let subbed := lowered.map (fun c => if isPyWordChar c || isPySpaceChar c then c else ' ')
  ((wsSplit subbed).filter (fun t => 2 < t.length)).map (fun t => String.mk t)

/-- Embedding of `BM25.tokenize` on an arbitrary Python value: the code
first applies `str(text)`, then tokenizes the resulting string. -/
def tokenizeVal (v : PyVal) : List String := tokenizeStr (pyValStr v)

/-! ## Python string primitives used by the merger -/

/-- Model of Python `str.lower()` (ASCII fragment), at the string level. -/
def pyLower (s : String) : String := String.mk (s.toList.map Char.toLower)

/-- Model of Python `str.strip()`: drop leading and trailing whitespace. -/
def pyStrip (s : String) : String :=
  String.mk (((s.toList.dropWhile isPySpaceChar).reverse.dropWhile isPySpaceChar).reverse)

/-- Model of Python string slicing `s[:n]`. -/
def pyTake (s : String) (n : Nat) : String := String.mk (s.toList.take n)

/-- Model of Python `str.startswith(pre)`. -/
def pyStartsWith (s pre : String) : Bool := pre.toList.isPrefixOf s.toList

/-! ## Records and identity keys (config_loader.py) -/

/-- A CSV row: an ordered association list from field names to string
values, modelling a Python dict with string keys and string values. -/
abbrev Record := List (String × String)

/-- The priority fields consulted by `ConfigLoader._generate_item_key`. -/
def nameFields : List String := ["name", "title", "style", "stack", "framework"]

/-- Truthy lookup: the value of field `f` when present and non-empty
(Python `if field in item and item[field]`). -/
def truthyLookup (item : Record) (f : String) : Option String :=
  match item.lookup f with
  | some v => if v = "" then none else some v
  | none => none

/-- Embedding of `ConfigLoader._generate_item_key` (config_loader.py lines
380-397): the lowercased, stripped values of every non-empty field among
name/title/style/stack/framework, joined by a bar; if none is present, the
first 50 characters of the first non-empty value not starting with an
underscore; if nothing qualifies, the sentinel `unknown`. -/
def generateItemKey (item : Record) : String :=
  let keyFields := nameFields.filterMap (fun f => (truthyLookup item f).map (fun v => pyStrip (pyLower v)))
  let keyFields :=
    if keyFields.isEmpty then
      match item.find? (fun p => !(p.2 == "") && !(pyStartsWith p.2 "_")) with
      | some p => [pyTake (pyStrip (pyLower p.2)) 50]
      | none => []
    else keyFields
  if keyFields.isEmpty then "unknown" else String.intercalate "|" keyFields

/-- Definition written from the words of the claim under examination (for
the refinement comparison only, not from the source): an identity key
generated from the FIRST non-empty value among the
name/title/style/stack/framework fields, with the same fallback as the
code. -/
def claimFirstNonEmptyKey (item : Record) : String :=
  match nameFields.filterMap (fun f => (truthyLookup item f).map (fun v => pyStrip (pyLower v))) with
  | v :: _ => v
  | [] =>
    match item.find? (fun p => !(p.2 == "") && !(pyStartsWith p.2 "_")) with
    | some p => pyTake (pyStrip (pyLower p.2)) 50
    | none => "unknown"

/-! ## Key similarity (`_calculate_key_similarity`, lines 433-448) -/

/-- The words of a key: Python `key.lower().split()` as a deduplicated
list, modelling the Python set of words. -/
def keyWords (key : String) : List String :=
  ((wsSplit (key.toList.map Char.toLower)).map (fun cs => String.mk cs)).dedup

/-- Embedding of `ConfigLoader._calculate_key_similarity`: word-set Jaccard
similarity of the two keys, `0` when either key or word set is empty.
Python float division of the two set sizes is modelled exactly in `ℚ`. -/
def calculateKeySimilarity (key1 key2 : String) : ℚ :=
  if key1 = "" ∨ key2 = "" then 0
  else
    let words1 := keyWords key1
    let words2 := keyWords key2
    if words1.isEmpty ∨ words2.isEmpty then 0
    else
      let inter := words1.filter (fun w => w ∈ words2)
      let union := words1 ++ words2.filter (fun w => ¬ w ∈ words1)
      if union.isEmpty then 0 else (inter.length : ℚ) / (union.length : ℚ)

/-! ## Conflicts (`_merge_with_conflict_resolution`, `_detect_field_conflicts`) -/

/-- A conflict record as built by the merger: either a duplicate conflict
(dict with keys type/data_type/key/builtin_source/external_source/
resolution/message) or a field conflict (dict with keys type/data_type/
external_key/builtin_key/conflicting_fields/similarity/resolution/
message). -/
inductive Conflict where
  | duplicate (dataType key builtinSource externalSource resolution message : String)
  | fieldConflict (dataType externalKey builtinKey : String)
      (conflictingFields : List String) (similarity : ℚ) (resolution message : String)
deriving DecidableEq

/-- Whether a conflict has Python `type` equal to `duplicate`. -/
def Conflict.isDuplicate : Conflict → Bool
  | .duplicate .. => true
  | .fieldConflict .. => false

/-- The `resolution` entry of a conflict dict. -/
def Conflict.resolutionOf : Conflict → String
  | .duplicate _ _ _ _ r _ => r
  | .fieldConflict _ _ _ _ _ r _ => r

/-- The shared fields of the external record that differ from the builtin
record, in external field order: Python
`[field for field in external_item if field in builtin_item and not
field.startswith('_') and external_item[field] != builtin_item[field]]`. -/
def diffFields (extItem builtinItem : Record) : List String :=
  (extItem.map Prod.fst).filter (fun f =>
    (builtinItem.lookup f).isSome && !(pyStartsWith f "_") &&
      !(extItem.lookup f == builtinItem.lookup f))

/-- Embedding of `ConfigLoader._detect_field_conflicts` (lines 399-431):
for each builtin item whose key is more than 70 percent similar to the
external key, emit one field conflict when some shared non-metadata field
differs. -/
def detectFieldConflicts (extItem : Record) (builtinItems : List Record) (dataType : String) :
    List Conflict :=
  builtinItems.filterMap (fun b =>
    let extKey := generateItemKey extItem
    let builtinKey := generateItemKey b
    let sim := calculateKeySimilarity extKey builtinKey
    if (0.7 : ℚ) < sim then
      let cf := diffFields extItem b
      if cf.isEmpty then none
      else
        some (Conflict.fieldConflict dataType extKey builtinKey cf sim "external_fields_used"
          ("Field conflicts detected between similar entries. External values used for fields: "
            ++ String.intercalate ", " cf))
    else none)

/-- The duplicate conflict built at lines 361-369 for an external item whose
key collides with a builtin key: source of the first builtin item with the
same key (defaulting to built-in), source of the external item (defaulting
to external), resolution used_builtin. -/
def mkDuplicateConflict (builtinItems : List Record) (dataType : String) (extItem : Record) :
    Conflict :=
  let extKey := generateItemKey extItem
  Conflict.duplicate dataType extKey
    (match builtinItems.find? (fun i => generateItemKey i == extKey) with
     | some it => (it.lookup "_source").getD "built-in"
     | none => "built-in")
    ((extItem.lookup "_source").getD "external")
    "used_builtin"
    ("Duplicate entry \x27" ++ extKey ++ "\x27 found in both built-in and external "
      ++ dataType ++ ". Using built-in version.")

/-- One iteration of the external-items loop of
`_merge_with_conflict_resolution`: a colliding external item only logs a
duplicate conflict, a non-colliding one is appended to the merged list and
scanned for field-level conflicts against the builtin items. -/
def mergeStep (builtinItems : List Record) (builtinKeys : List String) (dataType : String)
    (acc : List Record × List Conflict) (extItem : Record) : List Record × List Conflict :=
  let extKey := generateItemKey extItem
  if extKey ∈ builtinKeys then
    (acc.1, acc.2 ++ [mkDuplicateConflict builtinItems dataType extItem])
  else
    (acc.1 ++ [extItem], acc.2 ++ detectFieldConflicts extItem builtinItems dataType)

/-- Embedding of `ConfigLoader._merge_with_conflict_resolution`
(config_loader.py lines 332-378): start from all builtin items, fold the
external items through `mergeStep` with the (never updated) set of builtin
keys. Returns the merged items and the conflict list. -/
def mergeWithConflictResolution (builtinItems externalItems : List Record) (dataType : String) :
    List Record × List Conflict :=
  externalItems.foldl (mergeStep builtinItems (builtinItems.map generateItemKey) dataType)
    (builtinItems, [])

/-! ## Structural lemmas about the merge loop -/

/-- Unfolding of the merge loop: the merged list is the builtin items
followed by the non-colliding external items in order, and the conflict
list is the concatenation, over external items in order, of one duplicate
conflict per colliding item and the field conflicts of each non-colliding
item. -/
theorem mergeWithConflictResolution_eq (B E : List Record) (dt : String) :
    mergeWithConflictResolution B E dt =
      (B ++ E.filter (fun e => decide (generateItemKey e ∉ B.map generateItemKey)),
       E.flatMap (fun e =>
         if generateItemKey e ∈ B.map generateItemKey then [mkDuplicateConflict B dt e]
         else detectFieldConflicts e B dt)) := by
  have h : ∀ (L : List Record) (m : List Record) (c : List Conflict),
      L.foldl (mergeStep B (B.map generateItemKey) dt) (m, c) =
        (m ++ L.filter (fun e => decide (generateItemKey e ∉ B.map generateItemKey)),
         c ++ L.flatMap (fun e =>
           if generateItemKey e ∈ B.map generateItemKey then [mkDuplicateConflict B dt e]
           else detectFieldConflicts e B dt)) := by
    intro L
    induction L with
    | nil => intro m c; simp
    | cons e L ih =>
      intro m c
      rw [List.foldl_cons]
      by_cases hk : generateItemKey e ∈ B.map generateItemKey
      · have hstep : mergeStep B (B.map generateItemKey) dt (m, c) e
            = (m, c ++ [mkDuplicateConflict B dt e]) := by
          simp [mergeStep, hk]
        rw [hstep, ih, List.filter_cons_of_neg (by simp [hk]),
          List.flatMap_cons, if_pos hk]
        simp [List.append_assoc]
      · have hstep : mergeStep B (B.map generateItemKey) dt (m, c) e
            = (m ++ [e], c ++ detectFieldConflicts e B dt) := by
          simp [mergeStep, hk]
        rw [hstep, ih, List.filter_cons_of_pos (by simp [hk]),
          List.flatMap_cons, if_neg hk]
        simp [List.append_assoc]
  simpa [mergeWithConflictResolution] using h E B []

/-- Every conflict produced by the field-level scan is a field conflict,
never a duplicate conflict. -/
theorem detectFieldConflicts_not_duplicate (e : Record) (B : List Record) (dt : String) :
    ∀ c ∈ detectFieldConflicts e B dt, c.isDuplicate = false := by
  intro c hc
  rcases List.mem_filterMap.mp hc with ⟨b, _, hfb⟩
  simp only [detectFieldConflicts] at hfb
  split at hfb
  · split at hfb
    · exact absurd hfb (by simp)
    · cases hfb
      rfl
  · exact absurd hfb (by simp)

/-- The conflict built for a colliding external item is a duplicate
conflict with resolution used_builtin. -/
theorem mkDuplicateConflict_shape (B : List Record) (dt : String) (e : Record) :
    (mkDuplicateConflict B dt e).isDuplicate = true ∧
      (mkDuplicateConflict B dt e).resolutionOf = "used_builtin" := by
  constructor <;> rfl

/-- The number of duplicate conflicts reported by the merge equals the
number of external items whose identity key occurs among the builtin
keys. -/
theorem mergeWithConflictResolution_dupCount (B E : List Record) (dt : String) :
    ((mergeWithConflictResolution B E dt).2).countP Conflict.isDuplicate =
      E.countP (fun e => decide (generateItemKey e ∈ B.map generateItemKey)) := by
  rw [mergeWithConflictResolution_eq]
  show (E.flatMap fun e =>
      if generateItemKey e ∈ B.map generateItemKey then [mkDuplicateConflict B dt e]
      else detectFieldConflicts e B dt).countP Conflict.isDuplicate
    = E.countP (fun e => decide (generateItemKey e ∈ B.map generateItemKey))
  induction E with
  | nil => simp
  | cons e E ih =>
    rw [List.flatMap_cons, List.countP_append, ih, List.countP_cons]
    by_cases hk : generateItemKey e ∈ B.map generateItemKey
    · rw [if_pos hk]
      have h1 : List.countP Conflict.isDuplicate [mkDuplicateConflict B dt e] = 1 := by
        rw [List.countP_cons, List.countP_nil]
        simp [(mkDuplicateConflict_shape B dt e).1]
      rw [h1]
      have h2 : decide (generateItemKey e ∈ B.map generateItemKey) = true := by simp [hk]
      rw [h2]
      simp [Nat.add_comm]
    · rw [if_neg hk]
      have hz : (detectFieldConflicts e B dt).countP Conflict.isDuplicate = 0 := by
        rw [List.countP_eq_zero]
        intro c hc
        simpa using detectFieldConflicts_not_duplicate e B dt c hc
      have h2 : decide (generateItemKey e ∈ B.map generateItemKey) = false := by simp [hk]
      rw [hz, h2]
      simp

/-- Every duplicate conflict in the merge output carries resolution
used_builtin. -/
theorem mergeWithConflictResolution_dup_resolution (B E : List Record) (dt : String) :
    ∀ c ∈ (mergeWithConflictResolution B E dt).2,
      c.isDuplicate = true → c.resolutionOf = "used_builtin" := by
  rw [mergeWithConflictResolution_eq]
  intro c hc hdup
  rcases List.mem_flatMap.mp hc with ⟨e, _, hce⟩
  by_cases hk : generateItemKey e ∈ B.map generateItemKey
  · rw [if_pos hk] at hce
    rcases List.mem_singleton.mp hce with rfl
    exact (mkDuplicateConflict_shape B dt e).2
  · rw [if_neg hk] at hce
    exact absurd hdup (by simp [detectFieldConflicts_not_duplicate e B dt c hce])

/-- The length of the filtered external list: externals minus the colliding
ones. -/
theorem filter_noncolliding_length (B E : List Record) :
    (E.filter (fun e => decide (generateItemKey e ∉ B.map generateItemKey))).length
      = E.length - E.countP (fun e => decide (generateItemKey e ∈ B.map generateItemKey)) := by
  have h := List.length_eq_countP_add_countP
    (fun e => decide (generateItemKey e ∈ B.map generateItemKey)) (l := E)
  rw [← List.countP_eq_length_filter]
  simp only [decide_not, Bool.decide_eq_true] at h ⊢
  omega

/-! ## Claim C1 (corrected) -/

/-- Counterexample to claim C1 as stated: the identity key is NOT generated
from the first non-empty of the name/title/style/stack/framework fields.
With builtin `{name: a}` and external `{name: a, title: b}`, the
first-non-empty keys coincide (both `a`), yet the merge reports zero
duplicate conflicts, and the external record is kept (merged size 2, not
`1 + 1 - 1 = 1`), because the code concatenates ALL non-empty name-like
fields (the external key is `a|b`). -/
theorem mergeSingleCollision_counterexample :
    claimFirstNonEmptyKey [("name", "a"), ("title", "b")] = claimFirstNonEmptyKey [("name", "a")]
    ∧ (mergeWithConflictResolution [[("name", "a")]] [[("name", "a"), ("title", "b")]]
        "domains").2.countP Conflict.isDuplicate = 0
    ∧ (mergeWithConflictResolution [[("name", "a")]] [[("name", "a"), ("title", "b")]]
        "domains").1.length = 2
    ∧ generateItemKey [("name", "a"), ("title", "b")] ≠ generateItemKey [("name", "a")] := by
  refine ⟨by decide, ?_, ?_, by decide⟩
  · rw [mergeWithConflictResolution_dupCount]
    decide
  · rw [mergeWithConflictResolution_eq]
    decide

/-- Claim C1, amended: with the identity key as actually generated (all
non-empty name-like fields joined by a bar, else the fallback), when the
external set contains exactly one record whose key occurs among the builtin
keys, the merged set is the builtin records verbatim followed by the
non-colliding external records (the colliding external record is
discarded), its size is `len(B) + len(E) - 1`, there is exactly one
duplicate conflict, and every duplicate conflict resolves to
`used_builtin`. -/
theorem mergeSingleCollisionUsedBuiltin (B E : List Record) (dt : String)
    (h1 : E.countP (fun e => decide (generateItemKey e ∈ B.map generateItemKey)) = 1) :
    (mergeWithConflictResolution B E dt).1
        = B ++ E.filter (fun e => decide (generateItemKey e ∉ B.map generateItemKey))
    ∧ (mergeWithConflictResolution B E dt).1.length = B.length + E.length - 1
    ∧ (mergeWithConflictResolution B E dt).2.countP Conflict.isDuplicate = 1
    ∧ ∀ c ∈ (mergeWithConflictResolution B E dt).2,
        c.isDuplicate = true → c.resolutionOf = "used_builtin" := by
  refine ⟨?_, ?_, ?_, mergeWithConflictResolution_dup_resolution B E dt⟩
  · rw [mergeWithConflictResolution_eq]
  · rw [mergeWithConflictResolution_eq]
    show (B ++ _).length = _
    rw [List.length_append, filter_noncolliding_length, h1]
    have hle : 1 ≤ E.length := by
      have := List.countP_le_length
        (p := fun e => decide (generateItemKey e ∈ B.map generateItemKey)) (l := E)
      omega
    omega
  · rw [mergeWithConflictResolution_dupCount, h1]

/-- Witness for the amended claim C1 at a concrete input: one of the two
external records collides with the single builtin record. -/
theorem mergeSingleCollisionUsedBuiltin_witness :
    (([[("name", "alpha")], [("name", "beta")]] : List Record).countP
        (fun e => decide (generateItemKey e ∈ ([[("name", "alpha")]] : List Record).map generateItemKey)) = 1)
    ∧ (mergeWithConflictResolution [[("name", "alpha")]] [[("name", "alpha")], [("name", "beta")]]
        "domains").1.length = 2
    ∧ (mergeWithConflictResolution [[("name", "alpha")]] [[("name", "alpha")], [("name", "beta")]]
        "domains").2.countP Conflict.isDuplicate = 1 := by
  have h1 : (([[("name", "alpha")], [("name", "beta")]] : List Record).countP
      (fun e => decide (generateItemKey e ∈ ([[("name", "alpha")]] : List Record).map generateItemKey)) = 1) := by
    decide
  have h := mergeSingleCollisionUsedBuiltin [[("name", "alpha")]]
    [[("name", "alpha")], [("name", "beta")]] "domains" h1
  exact ⟨h1, by simpa using h.2.1, h.2.2.1⟩

/-! ## Claim C8 (confirmed) -/

/-- Claim C8: when no external identity key occurs among the builtin keys,
the merge keeps all records of both sides (size `len(B) + len(E)`) and
reports zero duplicate conflicts. -/
theorem mergeDisjointKeepsAll (B E : List Record) (dt : String)
    (h : ∀ e ∈ E, generateItemKey e ∉ B.map generateItemKey) :
    (mergeWithConflictResolution B E dt).1.length = B.length + E.length
    ∧ (mergeWithConflictResolution B E dt).2.countP Conflict.isDuplicate = 0 := by
  constructor
  · rw [mergeWithConflictResolution_eq]
    show (B ++ _).length = _
    rw [List.length_append, List.filter_eq_self.mpr (fun a ha => by simpa using h a ha)]
  · rw [mergeWithConflictResolution_dupCount]
    rw [List.countP_eq_zero]
    intro e he
    simpa using h e he

/-- Witness for claim C8 at a concrete disjoint input. -/
theorem mergeDisjointKeepsAll_witness :
    (∀ e ∈ ([[("name", "gamma")], [("name", "delta")]] : List Record),
        generateItemKey e ∉ ([[("name", "alpha")]] : List Record).map generateItemKey)
    ∧ (mergeWithConflictResolution [[("name", "alpha")]] [[("name", "gamma")], [("name", "delta")]]
        "stacks").1.length = 3
    ∧ (mergeWithConflictResolution [[("name", "alpha")]] [[("name", "gamma")], [("name", "delta")]]
        "stacks").2.countP Conflict.isDuplicate = 0 := by
  have hd : ∀ e ∈ ([[("name", "gamma")], [("name", "delta")]] : List Record),
      generateItemKey e ∉ ([[("name", "alpha")]] : List Record).map generateItemKey := by
    decide
  have h := mergeDisjointKeepsAll [[("name", "alpha")]] [[("name", "gamma")], [("name", "delta")]]
    "stacks" hd
  exact ⟨hd, by simpa using h.1, h.2⟩

/-! ## Claim C10 (confirmed) -/

/-- Claim C10: the merger never deduplicates within the external input.
Every external record whose key matches no builtin key is kept with its
full multiplicity (`count` in the merged list is its builtin count plus its
external count, so two identical-key external records are both appended),
and the number of duplicate conflicts equals the number of external records
colliding with a BUILTIN key, so externally-shared keys generate none: the
duplicate check only consults the builtin key set, which the loop never
extends. -/
theorem mergeKeepsExternalDuplicates (B E : List Record) (dt : String) (e : Record)
    (hkey : generateItemKey e ∉ B.map generateItemKey) :
    (mergeWithConflictResolution B E dt).1.count e = B.count e + E.count e
    ∧ (mergeWithConflictResolution B E dt).2.countP Conflict.isDuplicate
        = E.countP (fun x => decide (generateItemKey x ∈ B.map generateItemKey)) := by
  constructor
  · rw [mergeWithConflictResolution_eq]
    show (B ++ _).count e = _
    rw [List.count_append, List.count_filter (by simpa using hkey)]
  · exact mergeWithConflictResolution_dupCount B E dt

/-- Witness for claim C10: two identical external records, colliding with
no builtin record, are both kept and produce no duplicate conflict. -/
theorem mergeKeepsExternalDuplicates_witness :
    (generateItemKey [("name", "dup")] ∉ ([[("name", "alpha")]] : List Record).map generateItemKey)
    ∧ (mergeWithConflictResolution [[("name", "alpha")]] [[("name", "dup")], [("name", "dup")]]
        "domains").1.count [("name", "dup")] = 2
    ∧ (mergeWithConflictResolution [[("name", "alpha")]] [[("name", "dup")], [("name", "dup")]]
        "domains").2.countP Conflict.isDuplicate = 0 := by
  have hk : generateItemKey [("name", "dup")]
      ∉ ([[("name", "alpha")]] : List Record).map generateItemKey := by decide
  have h := mergeKeepsExternalDuplicates [[("name", "alpha")]]
    [[("name", "dup")], [("name", "dup")]] "domains" [("name", "dup")] hk
  refine ⟨hk, by simpa using h.1, ?_⟩
  rw [h.2]
  decide

/-! ## Claim C6 (confirmed) -/

/-- Evaluation rule for the similarity when neither key nor word set is
empty: the Jaccard ratio of the word sets. -/
theorem calculateKeySimilarity_eq_ratio (k1 k2 : String)
    (h1 : ¬(k1 = "" ∨ k2 = "")) (hw : ¬((keyWords k1).isEmpty = true ∨ (keyWords k2).isEmpty = true))
    (hu : (keyWords k1 ++ (keyWords k2).filter (fun w => decide (¬ w ∈ keyWords k1))).isEmpty = false) :
    calculateKeySimilarity k1 k2 =
      (((keyWords k1).filter (fun w => decide (w ∈ keyWords k2))).length : ℚ)
        / ((keyWords k1 ++ (keyWords k2).filter (fun w => decide (¬ w ∈ keyWords k1))).length : ℚ) := by
  unfold calculateKeySimilarity
  rw [if_neg h1, if_neg hw, if_neg (by rw [hu]; exact Bool.false_ne_true)]

/-- Claim C6: an external record that is appended (no exact key collision)
and whose identity key is more than 70 percent similar to some builtin
record key, with at least one shared non-metadata field differing, yields a
field conflict listing exactly the differing fields with resolution
external_fields_used; and the conflict is advisory only: the merged list
keeps every builtin record verbatim (it is the builtin list followed by the
non-colliding external records, so no builtin field is overwritten). -/
theorem fieldConflictAdvisory (B E : List Record) (dt : String) (e b : Record)
    (he : e ∈ E) (hkey : generateItemKey e ∉ B.map generateItemKey) (hb : b ∈ B)
    (hsim : (0.7 : ℚ) < calculateKeySimilarity (generateItemKey e) (generateItemKey b))
    (hdiff : diffFields e b ≠ []) :
    Conflict.fieldConflict dt (generateItemKey e) (generateItemKey b) (diffFields e b)
        (calculateKeySimilarity (generateItemKey e) (generateItemKey b))
        "external_fields_used"
        ("Field conflicts detected between similar entries. External values used for fields: "
          ++ String.intercalate ", " (diffFields e b))
      ∈ (mergeWithConflictResolution B E dt).2
    ∧ (mergeWithConflictResolution B E dt).1
        = B ++ E.filter (fun x => decide (generateItemKey x ∉ B.map generateItemKey)) := by
  refine ⟨?_, (mergeWithConflictResolution_eq B E dt).symm ▸ rfl⟩
  rw [mergeWithConflictResolution_eq]
  show _ ∈ E.flatMap _
  refine List.mem_flatMap.mpr ⟨e, he, ?_⟩
  rw [if_neg hkey]
  simp only [detectFieldConflicts]
  refine List.mem_filterMap.mpr ⟨b, hb, ?_⟩
  have hem : (diffFields e b).isEmpty = false := List.isEmpty_eq_false.mpr hdiff
  simp only [if_pos hsim, hem, Bool.false_eq_true, if_false]

/-- Witness for claim C6 at a concrete input: keys `modern dark blue style
plus` and `modern dark blue style` have similarity 4/5, and the shared
fields name and color differ. -/
theorem fieldConflictAdvisory_witness :
    ((0.7 : ℚ) < calculateKeySimilarity "modern dark blue style plus" "modern dark blue style")
    ∧ diffFields [("name", "modern dark blue style plus"), ("color", "red")]
        [("name", "modern dark blue style"), ("color", "blue")] = ["name", "color"]
    ∧ (mergeWithConflictResolution [[("name", "modern dark blue style"), ("color", "blue")]]
          [[("name", "modern dark blue style plus"), ("color", "red")]] "domains").1
        = [[("name", "modern dark blue style"), ("color", "blue")],
           [("name", "modern dark blue style plus"), ("color", "red")]]
    ∧ Conflict.fieldConflict "domains" "modern dark blue style plus" "modern dark blue style"
        ["name", "color"] (calculateKeySimilarity "modern dark blue style plus" "modern dark blue style")
        "external_fields_used"
        ("Field conflicts detected between similar entries. External values used for fields: "
          ++ String.intercalate ", " ["name", "color"])
      ∈ (mergeWithConflictResolution [[("name", "modern dark blue style"), ("color", "blue")]]
          [[("name", "modern dark blue style plus"), ("color", "red")]] "domains").2 := by
  have hk1 : generateItemKey [("name", "modern dark blue style plus"), ("color", "red")]
      = "modern dark blue style plus" := by decide
  have hk2 : generateItemKey [("name", "modern dark blue style"), ("color", "blue")]
      = "modern dark blue style" := by decide
  have hval : calculateKeySimilarity "modern dark blue style plus" "modern dark blue style"
      = ((4 : ℕ) : ℚ) / ((5 : ℕ) : ℚ) := by
    rw [calculateKeySimilarity_eq_ratio _ _ (by decide) (by decide) (by decide)]
    have hni : (((keyWords "modern dark blue style plus").filter
        (fun w => decide (w ∈ keyWords "modern dark blue style"))).length) = 4 := by decide
    have hnu : ((keyWords "modern dark blue style plus"
        ++ (keyWords "modern dark blue style").filter
          (fun w => decide (¬ w ∈ keyWords "modern dark blue style plus"))).length) = 5 := by decide
    rw [hni, hnu]
  have hsim : (0.7 : ℚ) < calculateKeySimilarity "modern dark blue style plus" "modern dark blue style" := by
    rw [hval]
    norm_num
  have h := fieldConflictAdvisory
    [[("name", "modern dark blue style"), ("color", "blue")]]
    [[("name", "modern dark blue style plus"), ("color", "red")]]
    "domains"
    [("name", "modern dark blue style plus"), ("color", "red")]
    [("name", "modern dark blue style"), ("color", "blue")]
    (by decide) (by decide) (by decide) (by rw [hk1, hk2]; exact hsim) (by decide)
  have hdf : diffFields [("name", "modern dark blue style plus"), ("color", "red")]
      [("name", "modern dark blue style"), ("color", "blue")] = ["name", "color"] := by decide
  refine ⟨hsim, hdf, ?_, ?_⟩
  · rw [h.2]
    decide
  · have hmem := h.1
    rw [hk1, hk2, hdf] at hmem
    exact hmem

/-! ## BM25 engine (core.py lines 126-185)

The fitted state of the Python `BM25` object is derived from the tokenized
corpus: `self.corpus` is `fitCorpus documents`, `self.doc_lengths[i]` is the
length of the i-th tokenized document, `self.N` is the corpus length,
`self.avgdl` is `avgdl`, `self.doc_freqs[w]` / membership of `w` in
`self.idf` is `dfCount` (a word is a key of `idf` exactly when it occurs in
at least one document), and `self.idf[w]` is `bm25Idf`. Scores live in `ℝ`
with `Real.log` modelling `math.log`. -/

/-- Embedding of `BM25.fit` line 146: the tokenized corpus. -/
def fitCorpus (documents : List String) : List (List String) := documents.map tokenizeStr

/-- Document frequency of a word: the number of documents containing it
(each document counted once, as the `seen` set in `fit` ensures). -/
def dfCount (corpus : List (List String)) (w : String) : Nat :=
  (corpus.filter (fun d => d.contains w)).length

/-- Embedding of `self.avgdl`: the average tokenized document length, `0`
for the empty corpus (`fit` returns early at `N == 0`, leaving the
constructor value 0). -/
noncomputable def avgdl (corpus : List (List String)) : ℝ :=
  if corpus.length = 0 then 0
  else ((corpus.map List.length).sum : ℝ) / (corpus.length : ℝ)

/-- Embedding of `self.idf[w] = log((N - df + 0.5) / (df + 0.5) + 1)`. -/
noncomputable def bm25Idf (corpus : List (List String)) (w : String) : ℝ :=
  Real.log (((corpus.length : ℝ) - (dfCount corpus w : ℝ) + 0.5)
    / ((dfCount corpus w : ℝ) + 0.5) + 1)

/-- The score contribution of one query-token occurrence against a document
with term frequency `tf` and length `docLen` (the body of the inner loop of
`BM25.score`, lines 175-181): zero when the token is not in the fitted
vocabulary (`token in self.idf` fails), else
`idf * tf*(k1+1) / (tf + k1*(1 - b + b*docLen/avgdl))`. -/
noncomputable def bm25TermWeight (k1 b : ℝ) (corpus : List (List String)) (w : String)
    (tf : Nat) (docLen : Nat) : ℝ :=
  if 1 ≤ dfCount corpus w then
    bm25Idf corpus w * ((tf : ℝ) * (k1 + 1))
      / ((tf : ℝ) + k1 * (1 - b + b * (docLen : ℝ) / avgdl corpus))
  else 0

/-- The score of one document described by its term-frequency table and its
length: the sum of `bm25TermWeight` over the query tokens (with
multiplicity, as the Python loop iterates `query_tokens`). -/
noncomputable def bm25ScoreOfCounts (k1 b : ℝ) (corpus : List (List String))
    (queryTokens : List String) (tf : String → Nat) (docLen : Nat) : ℝ :=
  queryTokens.foldl (fun s w => s + bm25TermWeight k1 b corpus w (tf w) docLen) 0

/-- The score of one tokenized document: `term_freqs[token]` is the count
of the token in the document and `doc_len` its length. -/
noncomputable def bm25DocScore (k1 b : ℝ) (corpus : List (List String))
    (queryTokens : List String) (doc : List String) : ℝ :=
  bm25ScoreOfCounts k1 b corpus queryTokens (fun w => doc.count w) doc.length

/-- The unsorted score list of `BM25.score`: one `(index, score)` pair per
document, in corpus order. -/
noncomputable def bm25ScoresUnsorted (k1 b : ℝ) (corpus : List (List String))
    (query : String) : List (Nat × ℝ) :=
  corpus.enum.map (fun p => (p.1, bm25DocScore k1 b corpus (tokenizeStr query) p.2))

/-- Stable descending insertion: place `x` before the first element whose
score is less than or equal to the score of `x` (elements with strictly
greater score stay in front; elements with equal score that arrived earlier
also stay in front, giving the stability of Python `sorted`). -/
noncomputable def insertRankedDesc (x : Nat × ℝ) : List (Nat × ℝ) → List (Nat × ℝ)
  | [] => [x]
  | y :: ys => if x.2 < y.2 then y :: insertRankedDesc x ys else x :: y :: ys

/-- Model of Python `sorted(scores, key=lambda x: x[1], reverse=True)`: a
stable insertion sort by descending score. -/
noncomputable def sortRankedDesc : List (Nat × ℝ) → List (Nat × ℝ)
  | [] => []
  | x :: xs => insertRankedDesc x (sortRankedDesc xs)

/-- Embedding of `BM25.score` (lines 163-185): all documents scored, sorted
by score descending, stable. -/
noncomputable def bm25Rank (k1 b : ℝ) (corpus : List (List String)) (query : String) :
    List (Nat × ℝ) :=
  sortRankedDesc (bm25ScoresUnsorted k1 b corpus query)

/-! ## The search pipelines (core.py lines 195-217 and 474-505) -/

/-- The searchable text of a row: the space-join of its values at the
search columns, missing columns contributing the empty string
(`" ".join(str(row.get(col, "")) for col in search_cols)`). -/
def rowText (searchCols : List String) (row : Record) : String :=
  String.intercalate " " (searchCols.map (fun c => (row.lookup c).getD ""))

/-- The projection of a row to the output columns:
`{col: row.get(col, "") for col in output_cols if col in row}`. -/
def projectRow (outputCols : List String) (row : Record) : Record :=
  outputCols.filterMap (fun c => (row.lookup c).map (fun v => (c, v)))

/-- Embedding of the core of `_search_csv` after the file is loaded: build
the documents from the search columns, rank with a default-parameter BM25
(`k1 = 1.5`, `b = 0.75`), keep the entries among the first `max_results`
whose score is strictly positive, project each surviving row. -/
noncomputable def searchCsvData (data : List Record) (searchCols outputCols : List String)
    (query : String) (maxResults : Nat) : List Record :=
  let documents := data.map (rowText searchCols)
  let ranked := bm25Rank 1.5 0.75 (fitCorpus documents) query
  ((ranked.take maxResults).filter (fun p => decide (0 < p.2))).map
    (fun p => projectRow outputCols (data.getD p.1 []))

/-- A result dict of `_search_data_list`: projected fields plus the score
and, when the row carries one, the `_source` provenance tag. -/
structure SearchHit where
  fields : Record
  score : ℝ
  source : Option String

/-- Embedding of `_search_data_list` (lines 474-505): empty input returns
no results; otherwise the `_search_csv` pipeline, each surviving row also
carrying its score and its optional `_source` tag. -/
noncomputable def searchDataList (data : List Record) (searchCols outputCols : List String)
    (query : String) (maxResults : Nat) : List SearchHit :=
  if data.isEmpty then []
  else
    let documents := data.map (rowText searchCols)
    let ranked := bm25Rank 1.5 0.75 (fitCorpus documents) query
    ((ranked.take maxResults).filter (fun p => decide (0 < p.2))).map
      (fun p =>
        { fields := projectRow outputCols (data.getD p.1 []),
          score := p.2,
          source := (data.getD p.1 []).lookup "_source" })

/-! ## Order properties of the stable descending sort -/

/-- The intended order of the ranked list: strictly greater score first,
equal scores ordered by original document index (the stability of the
Python sort on the enumerated score list). -/
def rankedDescLex (a b : Nat × ℝ) : Prop := b.2 < a.2 ∨ (a.2 = b.2 ∧ a.1 < b.1)

/-- Inserting is a permutation with the new element in front. -/
theorem insertRankedDesc_perm (x : Nat × ℝ) (l : List (Nat × ℝ)) :
    (insertRankedDesc x l).Perm (x :: l) := by
  induction l with
  | nil => rfl
  | cons y ys ih =>
    rw [insertRankedDesc]
    split
    · exact ((ih.cons y).trans (List.Perm.swap x y ys))
    · exact List.Perm.refl _

/-- Inserting an element with the smallest original index into a list
ordered by `rankedDescLex` keeps the order. -/
theorem insertRankedDesc_pairwise (x : Nat × ℝ) (l : List (Nat × ℝ))
    (hl : l.Pairwise rankedDescLex) (hx : ∀ y ∈ l, x.1 < y.1) :
    (insertRankedDesc x l).Pairwise rankedDescLex := by
  induction l with
  | nil => exact List.pairwise_singleton _ _
  | cons y ys ih =>
    rw [insertRankedDesc]
    rcases List.pairwise_cons.mp hl with ⟨hyys, hys⟩
    split
    · rename_i hlt
      refine List.pairwise_cons.mpr ⟨?_, ih hys (fun z hz => hx z (List.mem_cons_of_mem y hz))⟩
      intro z hz
      rcases List.mem_cons.mp ((insertRankedDesc_perm x ys).mem_iff.mp hz) with hzx | hzys
      · subst hzx
        exact Or.inl hlt
      · exact hyys z hzys
    · rename_i hnlt
      have hyx : y.2 ≤ x.2 := le_of_not_lt hnlt
      refine List.pairwise_cons.mpr ⟨?_, hl⟩
      intro z hz
      rcases List.mem_cons.mp hz with hzy | hzys
      · subst hzy
        rcases lt_or_eq_of_le hyx with hlt | heq
        · exact Or.inl hlt
        · exact Or.inr ⟨heq.symm, hx z (List.mem_cons_self z _)⟩
      · rcases hyys z hzys with hzlt | ⟨hzeq, _⟩
        · exact Or.inl (lt_of_lt_of_le hzlt hyx)
        · rcases lt_or_eq_of_le hyx with hlt | heq
          · exact Or.inl (hzeq ▸ hlt)
          · exact Or.inr ⟨(heq.symm.trans hzeq), hx z (List.mem_cons_of_mem y hzys)⟩

/-- The sort is a permutation. -/
theorem sortRankedDesc_perm (l : List (Nat × ℝ)) : (sortRankedDesc l).Perm l := by
  induction l with
  | nil => rfl
  | cons x xs ih =>
    rw [sortRankedDesc]
    exact (insertRankedDesc_perm x (sortRankedDesc xs)).trans (ih.cons x)

/-- Sorting a list whose original indices are strictly increasing produces
a list ordered by `rankedDescLex` (descending scores, ties by original
position). -/
theorem sortRankedDesc_pairwise (l : List (Nat × ℝ))
    (h : l.Pairwise (fun a b => a.1 < b.1)) :
    (sortRankedDesc l).Pairwise rankedDescLex := by
  induction l with
  | nil => exact List.Pairwise.nil
  | cons x xs ih =>
    rw [sortRankedDesc]
    rcases List.pairwise_cons.mp h with ⟨hxxs, hxs⟩
    refine insertRankedDesc_pairwise x (sortRankedDesc xs) (ih hxs) ?_
    intro y hy
    exact hxxs y ((sortRankedDesc_perm xs).mem_iff.mp hy)

/-- The ranked list is ordered by nonincreasing score. -/
theorem sortRankedDesc_score_antitone (l : List (Nat × ℝ))
    (h : l.Pairwise (fun a b => a.1 < b.1)) :
    (sortRankedDesc l).Pairwise (fun a b => b.2 ≤ a.2) :=
  (sortRankedDesc_pairwise l h).imp (fun hab => hab.elim le_of_lt (fun hc => le_of_eq hc.1.symm))

/-- The unsorted score list, written over `List.range`: entry `i` carries
the score of document `i`. -/
theorem bm25ScoresUnsorted_eq_range (k1 b : ℝ) (corpus : List (List String)) (q : String) :
    bm25ScoresUnsorted k1 b corpus q
      = (List.range corpus.length).map
          (fun i => (i, bm25DocScore k1 b corpus (tokenizeStr q) (corpus.getD i []))) := by
  apply List.ext_getElem
  · simp [bm25ScoresUnsorted]
  · intro i h1 h2
    have hi : i < corpus.length := by simpa [bm25ScoresUnsorted] using h1
    simp only [bm25ScoresUnsorted, List.getElem_map, List.getElem_enum, List.getElem_range]
    rw [List.getD_eq_getElem corpus [] hi]

/-- The original indices of the unsorted score list strictly increase. -/
theorem bm25ScoresUnsorted_index_pairwise (k1 b : ℝ) (corpus : List (List String)) (q : String) :
    (bm25ScoresUnsorted k1 b corpus q).Pairwise (fun a b => a.1 < b.1) := by
  rw [bm25ScoresUnsorted_eq_range]
  exact (List.pairwise_map).mpr (by simpa using List.pairwise_lt_range corpus.length)

/-- In a list sorted by nonincreasing score, taking the first `k` entries
and keeping the strictly positive ones yields exactly
`min k (number of positive entries)` results: the positive entries form a
prefix, so none is lost to the truncation unless the budget runs out. -/
theorem take_filter_pos_length (l : List (Nat × ℝ)) (k : Nat)
    (h : l.Pairwise (fun a b => b.2 ≤ a.2)) :
    ((l.take k).filter (fun p => decide (0 < p.2))).length
      = min k (l.countP (fun p => decide (0 < p.2))) := by
  induction l generalizing k with
  | nil => simp
  | cons x xs ih =>
    cases k with
    | zero => simp
    | succ k =>
      rcases List.pairwise_cons.mp h with ⟨hx, hxs⟩
      rw [List.take_succ_cons, List.countP_cons]
      by_cases hp : 0 < x.2
      · rw [List.filter_cons_of_pos (by simpa using hp), List.length_cons, ih k hxs]
        simp only [hp, decide_true_eq_true, if_true]
        omega
      · have hxs0 : xs.countP (fun p => decide (0 < p.2)) = 0 := by
          rw [List.countP_eq_zero]
          intro y hy
          simp only [decide_eq_true_eq]
          exact fun hy0 => hp (lt_of_lt_of_le hy0 (hx y hy))
        have hfil : ((x :: xs.take k).filter (fun p => decide (0 < p.2))) = [] := by
          rw [List.filter_eq_nil_iff]
          intro y hy
          simp only [decide_eq_true_eq]
          rcases List.mem_cons.mp hy with rfl | hyk
          · exact hp
          · exact fun hy0 =>
              hp (lt_of_lt_of_le hy0 (hx y (List.take_subset k xs hyk)))
        rw [hfil]
        simp [hp, hxs0]

/-! ## Claim C5 (confirmed) -/

/-- Claim C5: on any fitted document collection and query, `score` returns
exactly one entry per document (a permutation of the enumerated per-index
scores given by the BM25 formula `bm25DocScore`, so each index of
`[0, len(D))` appears exactly once with its formula score), ordered by
score descending with ties in original document order. -/
theorem bm25RankCompleteSorted (docs : List String) (q : String) :
    (bm25Rank 1.5 0.75 (fitCorpus docs) q).Perm
        ((List.range docs.length).map
          (fun i => (i, bm25DocScore 1.5 0.75 (fitCorpus docs) (tokenizeStr q)
            ((fitCorpus docs).getD i []))))
    ∧ (bm25Rank 1.5 0.75 (fitCorpus docs) q).length = docs.length
    ∧ ((bm25Rank 1.5 0.75 (fitCorpus docs) q).map Prod.fst).Perm (List.range docs.length)
    ∧ (bm25Rank 1.5 0.75 (fitCorpus docs) q).Pairwise rankedDescLex := by
  have hlen : (fitCorpus docs).length = docs.length := by simp [fitCorpus]
  have he : bm25ScoresUnsorted 1.5 0.75 (fitCorpus docs) q
      = (List.range docs.length).map
        (fun i => (i, bm25DocScore 1.5 0.75 (fitCorpus docs) (tokenizeStr q)
          ((fitCorpus docs).getD i []))) := by
    rw [bm25ScoresUnsorted_eq_range, hlen]
  have hperm : (bm25Rank 1.5 0.75 (fitCorpus docs) q).Perm
      ((List.range docs.length).map
        (fun i => (i, bm25DocScore 1.5 0.75 (fitCorpus docs) (tokenizeStr q)
          ((fitCorpus docs).getD i [])))) := by
    rw [bm25Rank]
    refine (sortRankedDesc_perm _).trans ?_
    rw [he]
  refine ⟨hperm, ?_, ?_, ?_⟩
  · rw [hperm.length_eq]
    simp
  · have h := hperm.map Prod.fst
    refine h.trans ?_
    rw [List.map_map]
    have : (Prod.fst ∘ fun i => (i, bm25DocScore 1.5 0.75 (fitCorpus docs) (tokenizeStr q)
        ((fitCorpus docs).getD i []))) = id := rfl
    rw [this, List.map_id]
  · exact sortRankedDesc_pairwise _ (bm25ScoresUnsorted_index_pairwise 1.5 0.75 (fitCorpus docs) q)

/-! ## Claim C3 (confirmed) -/

/-- Claim C3: both search pipelines return at most `max_results` rows, the
number of rows is exactly the smaller of `max_results` and the number of
documents whose BM25 score is strictly positive (so zero-score documents
are excluded even when the budget is not reached), and every result of the
data-list pipeline carries a strictly positive score. -/
theorem searchTopKPositive (data : List Record) (searchCols outputCols : List String)
    (q : String) (k : Nat) :
    (searchCsvData data searchCols outputCols q k).length
        = min k ((bm25ScoresUnsorted 1.5 0.75 (fitCorpus (data.map (rowText searchCols))) q).countP
            (fun p => decide (0 < p.2)))
    ∧ (searchCsvData data searchCols outputCols q k).length ≤ k
    ∧ (searchDataList data searchCols outputCols q k).length
        = min k ((bm25ScoresUnsorted 1.5 0.75 (fitCorpus (data.map (rowText searchCols))) q).countP
            (fun p => decide (0 < p.2)))
    ∧ List.Forall (fun h => 0 < h.score) (searchDataList data searchCols outputCols q k) := by
  have hsorted : (bm25Rank 1.5 0.75 (fitCorpus (data.map (rowText searchCols))) q).Pairwise
      (fun a b => b.2 ≤ a.2) :=
    sortRankedDesc_score_antitone _ (bm25ScoresUnsorted_index_pairwise 1.5 0.75 _ q)
  have hcount : (bm25Rank 1.5 0.75 (fitCorpus (data.map (rowText searchCols))) q).countP
        (fun p => decide (0 < p.2))
      = (bm25ScoresUnsorted 1.5 0.75 (fitCorpus (data.map (rowText searchCols))) q).countP
        (fun p => decide (0 < p.2)) :=
    (sortRankedDesc_perm _).countP_eq _
  have hlen : ∀ kk : Nat,
      (((bm25Rank 1.5 0.75 (fitCorpus (data.map (rowText searchCols))) q).take kk).filter
        (fun p => decide (0 < p.2))).length
      = min kk ((bm25ScoresUnsorted 1.5 0.75 (fitCorpus (data.map (rowText searchCols))) q).countP
          (fun p => decide (0 < p.2))) := by
    intro kk
    rw [take_filter_pos_length _ kk hsorted, hcount]
  have hcsv : (searchCsvData data searchCols outputCols q k).length
      = min k ((bm25ScoresUnsorted 1.5 0.75 (fitCorpus (data.map (rowText searchCols))) q).countP
          (fun p => decide (0 < p.2))) := by
    rw [searchCsvData, List.length_map]
    exact hlen k
  have hdl : (searchDataList data searchCols outputCols q k).length
      = min k ((bm25ScoresUnsorted 1.5 0.75 (fitCorpus (data.map (rowText searchCols))) q).countP
          (fun p => decide (0 < p.2))) := by
    rw [searchDataList]
    by_cases hemp : data.isEmpty
    · rw [if_pos hemp]
      have hnil : data = [] := List.isEmpty_iff.mp hemp
      subst hnil
      simp [bm25ScoresUnsorted, fitCorpus]
    · rw [if_neg hemp, List.length_map]
      exact hlen k
  refine ⟨hcsv, ?_, hdl, ?_⟩
  · rw [hcsv]
    exact Nat.min_le_left _ _
  · rw [List.forall_iff_forall_mem]
    intro h hm
    rw [searchDataList] at hm
    by_cases hemp : data.isEmpty
    · rw [if_pos hemp] at hm
      exact absurd hm (List.not_mem_nil h)
    · rw [if_neg hemp] at hm
      rcases List.mem_map.mp hm with ⟨p, hp, rfl⟩
      have := (List.mem_filter.mp hp).2
      simpa using this

/-! ## Claim C7 (confirmed) -/

/-- A query whose tokens all miss the fitted vocabulary scores zero on
every document: each loop iteration skips (the `token in self.idf` guard
fails). -/
theorem bm25ScoreOfCounts_all_unknown (k1 b : ℝ) (corpus : List (List String))
    (qts : List String) (tf : String → Nat) (docLen : Nat)
    (h : ∀ w ∈ qts, dfCount corpus w = 0) :
    bm25ScoreOfCounts k1 b corpus qts tf docLen = 0 := by
  rw [bm25ScoreOfCounts]
  have hgen : ∀ (L : List String), (∀ w ∈ L, dfCount corpus w = 0) → ∀ s : ℝ,
      L.foldl (fun s w => s + bm25TermWeight k1 b corpus w (tf w) docLen) s = s := by
    intro L
    induction L with
    | nil => intro _ s; rfl
    | cons w L ih =>
      intro hL s
      rw [List.foldl_cons]
      have hw : bm25TermWeight k1 b corpus w (tf w) docLen = 0 := by
        rw [bm25TermWeight, if_neg]
        rw [hL w (List.mem_cons_self w L)]
        omega
      rw [hw, add_zero]
      exact ih (fun x hx => hL x (List.mem_cons_of_mem w hx)) s
  exact hgen qts h 0

/-- A term with zero frequency contributes a literal zero (the numerator
`tf * (k1 + 1)` vanishes). -/
theorem bm25TermWeight_zero_tf (k1 b : ℝ) (corpus : List (List String)) (w : String)
    (docLen : Nat) : bm25TermWeight k1 b corpus w 0 docLen = 0 := by
  rw [bm25TermWeight]
  split
  · norm_num
  · rfl

/-- The empty document (the tokenization of an empty string) scores zero on
every query. -/
theorem bm25DocScore_nil (k1 b : ℝ) (corpus : List (List String)) (qts : List String) :
    bm25DocScore k1 b corpus qts [] = 0 := by
  rw [bm25DocScore, bm25ScoreOfCounts]
  have hgen : ∀ (L : List String) (s : ℝ),
      L.foldl (fun s w => s + bm25TermWeight k1 b corpus w (List.count w []) 0) s = s := by
    intro L
    induction L with
    | nil => intro s; rfl
    | cons w L ih =>
      intro s
      rw [List.foldl_cons, List.count_nil, bm25TermWeight_zero_tf, add_zero]
      exact ih s
  simpa using hgen qts 0

/-- The average document length is strictly positive as soon as some word
has positive document frequency. -/
theorem avgdl_pos_of_df (corpus : List (List String)) (w : String)
    (h : 1 ≤ dfCount corpus w) : 0 < avgdl corpus := by
  obtain ⟨d, hd⟩ := List.exists_mem_of_length_pos (lt_of_lt_of_le Nat.zero_lt_one h)
  have hdm := (List.mem_filter.mp hd).1
  have hdc := (List.mem_filter.mp hd).2
  have hw : w ∈ d := List.mem_of_elem_eq_true hdc
  have hdlen : 1 ≤ d.length := List.length_pos.mpr (by rintro rfl; simp at hw)
  have hsum : 1 ≤ (corpus.map List.length).sum :=
    le_trans hdlen (List.single_le_sum (by simp) _ (List.mem_map_of_mem List.length hdm))
  have hN : 0 < corpus.length := List.length_pos.mpr (by rintro rfl; simp at hdm)
  rw [avgdl, if_neg (by omega)]
  apply div_pos
  · exact_mod_cast lt_of_lt_of_le Nat.zero_lt_one hsum
  · exact_mod_cast hN

/-- Claim C7: scoring is total. The empty collection ranks to the empty
list without error; a query with no recognized term ranks every document at
score zero in original order; the empty-string document tokenizes to the
empty document, has length zero and scores a literal zero against any
query; and the length-normalization divisor `avgdl` is strictly positive
whenever some query token is in the fitted vocabulary. -/
theorem bm25TotalEdgeCases (docs : List String) (q : String) :
    bm25Rank 1.5 0.75 (fitCorpus []) q = []
    ∧ ((∀ w ∈ tokenizeStr q, dfCount (fitCorpus docs) w = 0) →
        bm25Rank 1.5 0.75 (fitCorpus docs) q
          = (List.range docs.length).map (fun i => (i, (0 : ℝ))))
    ∧ tokenizeStr "" = []
    ∧ (∀ (corpus : List (List String)) (qts : List String),
        bm25DocScore 1.5 0.75 corpus qts [] = 0)
    ∧ ((∃ w ∈ tokenizeStr q, 1 ≤ dfCount (fitCorpus docs) w) → 0 < avgdl (fitCorpus docs)) := by
  refine ⟨rfl, ?_, rfl, fun corpus qts => bm25DocScore_nil 1.5 0.75 corpus qts, ?_⟩
  · intro h
    have hzero : bm25ScoresUnsorted 1.5 0.75 (fitCorpus docs) q
        = (List.range docs.length).map (fun i => (i, (0 : ℝ))) := by
      rw [bm25ScoresUnsorted_eq_range]
      rw [show (fitCorpus docs).length = docs.length from by simp [fitCorpus]]
      refine List.map_congr_left ?_
      intro i _
      rw [bm25DocScore, bm25ScoreOfCounts_all_unknown 1.5 0.75 (fitCorpus docs) _ _ _ h]
    have hpair : ((List.range docs.length).map (fun i => (i, (0 : ℝ)))).Pairwise
        (fun a b => a.1 < b.1) :=
      (List.pairwise_map).mpr (by simpa using List.pairwise_lt_range docs.length)
    have hperm : (bm25Rank 1.5 0.75 (fitCorpus docs) q).Perm
        ((List.range docs.length).map (fun i => (i, (0 : ℝ)))) := by
      rw [bm25Rank]
      refine (sortRankedDesc_perm _).trans ?_
      rw [hzero]
    have hmem0 : ∀ p ∈ bm25Rank 1.5 0.75 (fitCorpus docs) q, p.2 = 0 := by
      intro p hp
      rcases List.mem_map.mp (hperm.mem_iff.mp hp) with ⟨i, _, rfl⟩
      rfl
    have hsortedOut : (bm25Rank 1.5 0.75 (fitCorpus docs) q).Pairwise
        (fun a b => a.1 < b.1) := by
      refine ((sortRankedDesc_pairwise _ ?_).imp_of_mem ?_)
      · rw [hzero] at *
        exact hpair
      · intro a b ha hb hab
        rcases hab with hlt | ⟨_, hidx⟩
        · rw [hmem0 a ha, hmem0 b hb] at hlt
          exact absurd hlt (lt_irrefl 0)
        · exact hidx
    haveI : IsAntisymm (Nat × ℝ) (fun a b => a.1 < b.1) :=
      ⟨fun a b h1 h2 => absurd h1 (Nat.lt_asymm h2)⟩
    exact List.eq_of_perm_of_sorted hperm hsortedOut hpair
  · rintro ⟨w, _, hw⟩
    exact avgdl_pos_of_df (fitCorpus docs) w hw

/-- Witness for claim C7: with the corpus of the single document
`alpha beta`, the query `zzzz` has no recognized token and ranks the single
document at score zero, while the query `alpha` has a recognized token and
sees a strictly positive average document length. -/
theorem bm25TotalEdgeCases_witness :
    (∀ w ∈ tokenizeStr "zzzz", dfCount (fitCorpus ["alpha beta"]) w = 0)
    ∧ bm25Rank 1.5 0.75 (fitCorpus ["alpha beta"]) "zzzz"
        = (List.range 1).map (fun i => (i, (0 : ℝ)))
    ∧ (∃ w ∈ tokenizeStr "alpha", 1 ≤ dfCount (fitCorpus ["alpha beta"]) w)
    ∧ 0 < avgdl (fitCorpus ["alpha beta"]) := by
  have h1 : ∀ w ∈ tokenizeStr "zzzz", dfCount (fitCorpus ["alpha beta"]) w = 0 := by decide
  have h2 : ∃ w ∈ tokenizeStr "alpha", 1 ≤ dfCount (fitCorpus ["alpha beta"]) w := by decide
  exact ⟨h1, (bm25TotalEdgeCases ["alpha beta"] "zzzz").2.1 h1, h2,
    (bm25TotalEdgeCases ["alpha beta"] "alpha").2.2.2.2 h2⟩

/-! ## Claim C9 (confirmed) -/

/-- The average document length is nonnegative. -/
theorem avgdl_nonneg (corpus : List (List String)) : 0 ≤ avgdl corpus := by
  rw [avgdl]
  split
  · exact le_refl 0
  · positivity

/-- A word occurs in at most every document. -/
theorem dfCount_le_length (corpus : List (List String)) (w : String) :
    dfCount corpus w ≤ corpus.length :=
  List.length_filter_le _ corpus

/-- The inverse document frequency is nonnegative: since `df ≤ N`, the
argument of the logarithm is at least one. -/
theorem bm25Idf_nonneg (corpus : List (List String)) (w : String) :
    0 ≤ bm25Idf corpus w := by
  rw [bm25Idf]
  apply Real.log_nonneg
  have hdf : (dfCount corpus w : ℝ) ≤ (corpus.length : ℝ) := by
    exact_mod_cast dfCount_le_length corpus w
  have hden : (0 : ℝ) < (dfCount corpus w : ℝ) + 0.5 := by positivity
  nlinarith [div_nonneg (by nlinarith : (0 : ℝ) ≤ (corpus.length : ℝ) - (dfCount corpus w : ℝ) + 0.5) (le_of_lt hden)]

/-- With the default parameters, one extra occurrence of a term never
lowers its contribution: the map `tf ↦ tf*(k1+1)/(tf + K)` is monotone for
`K > 0`, and the idf factor is nonnegative. -/
theorem bm25TermWeight_succ_mono (corpus : List (List String)) (w : String)
    (tf docLen : Nat) :
    bm25TermWeight 1.5 0.75 corpus w tf docLen
      ≤ bm25TermWeight 1.5 0.75 corpus w (tf + 1) docLen := by
  rw [bm25TermWeight, bm25TermWeight]
  split
  · have hA : 0 ≤ bm25Idf corpus w := bm25Idf_nonneg corpus w
    have hdl : (0 : ℝ) ≤ 0.75 * (docLen : ℝ) / avgdl corpus :=
      div_nonneg (by positivity) (avgdl_nonneg corpus)
    set K : ℝ := 1.5 * (1 - 0.75 + 0.75 * (docLen : ℝ) / avgdl corpus) with hKdef
    have hK : (0 : ℝ) < K := by rw [hKdef]; nlinarith
    have htf : (0 : ℝ) ≤ (tf : ℝ) := Nat.cast_nonneg tf
    have hd1 : (0 : ℝ) < (tf : ℝ) + K := by nlinarith
    have hd2 : (0 : ℝ) < ((tf : ℝ) + 1) + K := by nlinarith
    have hfrac : (tf : ℝ) * (1.5 + 1) / ((tf : ℝ) + K)
        ≤ ((tf : ℝ) + 1) * (1.5 + 1) / (((tf : ℝ) + 1) + K) := by
      rw [div_le_div_iff hd1 hd2]
      nlinarith
    have h3 := mul_le_mul_of_nonneg_left hfrac hA
    rw [← mul_div_assoc, ← mul_div_assoc] at h3
    push_cast
    exact h3
  · exact le_refl 0

/-- Claim C9: with all fitted statistics held equal (same corpus, hence
same idf table and avgdl) and the document length unchanged, a document
carrying one additional occurrence of the term `t` (its other term
frequencies unchanged) never scores lower against any query. -/
theorem bm25TfMonotone (corpus : List (List String)) (q t : String)
    (tf1 tf2 : String → Nat) (docLen : Nat)
    (ht : tf2 t = tf1 t + 1) (hother : ∀ w, w ≠ t → tf2 w = tf1 w) :
    bm25ScoreOfCounts 1.5 0.75 corpus (tokenizeStr q) tf1 docLen
      ≤ bm25ScoreOfCounts 1.5 0.75 corpus (tokenizeStr q) tf2 docLen := by
  rw [bm25ScoreOfCounts, bm25ScoreOfCounts]
  have hstep : ∀ w, bm25TermWeight 1.5 0.75 corpus w (tf1 w) docLen
      ≤ bm25TermWeight 1.5 0.75 corpus w (tf2 w) docLen := by
    intro w
    by_cases hw : w = t
    · subst hw
      rw [ht]
      exact bm25TermWeight_succ_mono corpus w (tf1 w) docLen
    · rw [hother w hw]
  have hgen : ∀ (L : List String) (s1 s2 : ℝ), s1 ≤ s2 →
      L.foldl (fun s w => s + bm25TermWeight 1.5 0.75 corpus w (tf1 w) docLen) s1
        ≤ L.foldl (fun s w => s + bm25TermWeight 1.5 0.75 corpus w (tf2 w) docLen) s2 := by
    intro L
    induction L with
    | nil => intro s1 s2 h; exact h
    | cons w L ih =>
      intro s1 s2 h
      rw [List.foldl_cons, List.foldl_cons]
      exact ih _ _ (add_le_add h (hstep w))
  exact hgen (tokenizeStr q) 0 0 (le_refl 0)

/-- Witness for claim C9 at a concrete input: against the fitted corpus of
the single document `red blue paint` and the query `red`, raising the term
frequency of `red` from 0 to 1 (document length 3 unchanged) does not lower
the score. -/
theorem bm25TfMonotone_witness :
    ((fun w => if w = "red" then 1 else 0) "red" = (fun _ : String => 0) "red" + 1)
    ∧ bm25ScoreOfCounts 1.5 0.75 (fitCorpus ["red blue paint"]) (tokenizeStr "red")
        (fun _ : String => 0) 3
      ≤ bm25ScoreOfCounts 1.5 0.75 (fitCorpus ["red blue paint"]) (tokenizeStr "red")
        (fun w => if w = "red" then 1 else 0) 3 := by
  refine ⟨by decide, ?_⟩
  exact bm25TfMonotone (fitCorpus ["red blue paint"]) "red" "red"
    (fun _ => 0) (fun w => if w = "red" then 1 else 0) 3
    (by decide) (fun w hw => by simp [hw])

/-! ## Claim C4 (corrected) -/

/-- Characters of the pieces produced by the splitter are non-whitespace
characters of the input (or of the pending accumulator). -/
theorem wsSplitAux_chars (cs : List Char) :
    ∀ (acc : List Char), (∀ c ∈ acc, isPySpaceChar c = false) →
      ∀ piece ∈ wsSplitAux cs acc, ∀ c ∈ piece,
        isPySpaceChar c = false ∧ (c ∈ cs ∨ c ∈ acc) := by
  induction cs with
  | nil =>
    intro acc hacc piece hp c hc
    rw [wsSplitAux] at hp
    split at hp
    · exact absurd hp (List.not_mem_nil piece)
    · rcases List.mem_singleton.mp hp with rfl
      have hca : c ∈ acc := List.mem_reverse.mp hc
      exact ⟨hacc c hca, Or.inr hca⟩
  | cons d ds ih =>
    intro acc hacc piece hp c hc
    rw [wsSplitAux] at hp
    split at hp
    · split at hp
      · have := ih [] (by intro x hx; exact absurd hx (List.not_mem_nil x)) piece hp c hc
        exact ⟨this.1, Or.inl (List.mem_cons_of_mem d (this.2.elim id
          (fun hx => absurd hx (List.not_mem_nil c))))⟩
      · rcases List.mem_cons.mp hp with rfl | hp2
        · have hca : c ∈ acc := List.mem_reverse.mp hc
          exact ⟨hacc c hca, Or.inr hca⟩
        · have := ih [] (by intro x hx; exact absurd hx (List.not_mem_nil x)) piece hp2 c hc
          exact ⟨this.1, Or.inl (List.mem_cons_of_mem d (this.2.elim id
            (fun hx => absurd hx (List.not_mem_nil c))))⟩
    · rename_i hd
      have hdns : isPySpaceChar d = false := Bool.eq_false_iff.mpr hd
      have hacc2 : ∀ x ∈ d :: acc, isPySpaceChar x = false := by
        intro x hx
        rcases List.mem_cons.mp hx with rfl | hx2
        · exact hdns
        · exact hacc x hx2
      have := ih (d :: acc) hacc2 piece hp c hc
      refine ⟨this.1, ?_⟩
      rcases this.2 with hin | hin2
      · exact Or.inl (List.mem_cons_of_mem d hin)
      · rcases List.mem_cons.mp hin2 with rfl | hx
        · exact Or.inl (List.mem_cons_self c ds)
        · exact Or.inr hx

/-- Counterexample to claim C4 as stated: a non-string input does NOT yield
an empty sequence. The code applies `str(...)` first, so `None` tokenizes
to the single token `none` and the integer `123` to the token `123`. -/
theorem tokenizeNonString_counterexample :
    tokenizeVal PyVal.pyNone = ["none"]
    ∧ tokenizeVal PyVal.pyNone ≠ []
    ∧ tokenizeVal (PyVal.pyInt 123) = ["123"] := by
  refine ⟨by decide, by decide, by decide⟩

/-- Claim C4, amended: tokenize lowercases its input, replaces every
character that is neither a word character nor whitespace by a space,
splits on whitespace and drops tokens of length at most 2 (so every
produced token is longer than 2 and made of word characters only); it is a
pure function; the empty string yields the empty sequence and a string
input is tokenized as such — but a non-string input is first converted by
`str(...)` and tokenized like any string, so `None` yields the non-empty
sequence `[none]`. -/
theorem tokenizeContract (s : String) :
    tokenizeStr "" = []
    ∧ tokenizeVal (PyVal.pyStr s) = tokenizeStr s
    ∧ List.Forall (fun t => 2 < t.length) (tokenizeStr s)
    ∧ List.Forall (fun t => List.Forall (fun c => isPyWordChar c = true) t.toList) (tokenizeStr s)
    ∧ tokenizeVal PyVal.pyNone = ["none"] := by
  refine ⟨rfl, rfl, ?_, ?_, by decide⟩
  · rw [List.forall_iff_forall_mem]
    intro t ht
    rw [tokenizeStr] at ht
    rcases List.mem_map.mp ht with ⟨piece, hpf, rfl⟩
    have := (List.mem_filter.mp hpf).2
    simpa [String.length] using this
  · rw [List.forall_iff_forall_mem]
    intro t ht
    rw [List.forall_iff_forall_mem]
    intro c hc
    rw [tokenizeStr] at ht
    rcases List.mem_map.mp ht with ⟨piece, hpf, rfl⟩
    have hpm : piece ∈ wsSplit ((s.toList.map Char.toLower).map
        (fun c => if isPyWordChar c || isPySpaceChar c then c else ' ')) :=
      (List.mem_filter.mp hpf).1
    have hcp : c ∈ piece := hc
    have hch := wsSplitAux_chars _ [] (by intro x hx; exact absurd hx (List.not_mem_nil x))
      piece hpm c hcp
    have hcin : c ∈ (s.toList.map Char.toLower).map
        (fun c => if isPyWordChar c || isPySpaceChar c then c else ' ') :=
      hch.2.elim id (fun hx => absurd hx (List.not_mem_nil c))
    rcases List.mem_map.mp hcin with ⟨c0, _, rfl⟩
    by_cases hw : (isPyWordChar c0 || isPySpaceChar c0) = true
    · rw [if_pos hw]
      rw [if_pos hw] at hch
      rcases Bool.or_eq_true_iff.mp hw with h | h
      · exact h
      · exact absurd h (by rw [hch.1]; exact Bool.false_ne_true)
    · rw [if_neg hw] at hch
      exact absurd (by decide : isPySpaceChar ' ' = true)
        (by rw [hch.1]; exact Bool.false_ne_true)

/-! ## Query router (core.py lines 27-122, 220-287)

The data directory is abstracted: `dataOf file` returns the parsed rows of
`DATA_DIR / file` when that file exists, and `none` otherwise (so the
`filepath.exists()` checks become matches on `dataOf`; the error message
carries the configured file name for the absolute path). -/

/-- The default maximum number of results (`MAX_RESULTS`). -/
def MAX_RESULTS : Nat := 3

/-- One entry of `CSV_CONFIG`: backing file, search columns, output
columns. -/
structure CsvConfig where
  file : String
  searchCols : List String
  outputCols : List String
deriving DecidableEq

/-- The `style` entry of `CSV_CONFIG`, which is also the fallback config
used by `search` for an unknown domain (`CSV_CONFIG.get(domain,
CSV_CONFIG["style"])`). -/
def styleConfig : CsvConfig :=
  { file := "styles.csv",
    searchCols := ["Style Category", "Keywords", "Best For", "Type"],
    outputCols := ["Style Category", "Type", "Keywords", "Primary Colors",
      "Effects & Animation", "Best For", "Performance", "Accessibility",
      "Framework Compatibility", "Complexity"] }

/-- Embedding of `CSV_CONFIG` (core.py lines 31-97), in source order. -/
def CSV_CONFIG : List (String × CsvConfig) :=
  [("style", styleConfig),
   ("prompt",
    { file := "prompts.csv",
      searchCols := ["Style Category", "AI Prompt Keywords (Copy-Paste Ready)",
        "CSS/Technical Keywords"],
      outputCols := ["Style Category", "AI Prompt Keywords (Copy-Paste Ready)",
        "CSS/Technical Keywords", "Implementation Checklist"] }),
   ("color",
    { file := "colors.csv",
      searchCols := ["Product Type", "Keywords", "Notes"],
      outputCols := ["Product Type", "Keywords", "Primary (Hex)", "Secondary (Hex)",
        "CTA (Hex)", "Background (Hex)", "Text (Hex)", "Border (Hex)", "Notes"] }),
   ("chart",
    { file := "charts.csv",
      searchCols := ["Data Type", "Keywords", "Best Chart Type", "Accessibility Notes"],
      outputCols := ["Data Type", "Keywords", "Best Chart Type", "Secondary Options",
        "Color Guidance", "Accessibility Notes", "Library Recommendation",
        "Interactive Level"] }),
   ("landing",
    { file := "landing.csv",
      searchCols := ["Pattern Name", "Keywords", "Conversion Optimization", "Section Order"],
      outputCols := ["Pattern Name", "Keywords", "Section Order", "Primary CTA Placement",
        "Color Strategy", "Conversion Optimization"] }),
   ("product",
    { file := "products.csv",
      searchCols := ["Product Type", "Keywords", "Primary Style Recommendation",
        "Key Considerations"],
      outputCols := ["Product Type", "Keywords", "Primary Style Recommendation",
        "Secondary Styles", "Landing Page Pattern", "Dashboard Style (if applicable)",
        "Color Palette Focus"] }),
   ("ux",
    { file := "ux-guidelines.csv",
      searchCols := ["Category", "Issue", "Description", "Platform"],
      outputCols := ["Category", "Issue", "Platform", "Description", "Do", "Don\x27t",
        "Code Example Good", "Code Example Bad", "Severity"] }),
   ("typography",
    { file := "typography.csv",
      searchCols := ["Font Pairing Name", "Category", "Mood/Style Keywords", "Best For",
        "Heading Font", "Body Font"],
      outputCols := ["Font Pairing Name", "Category", "Heading Font", "Body Font",
        "Mood/Style Keywords", "Best For", "Google Fonts URL", "CSS Import",
        "Tailwind Config", "Notes"] }),
   ("icons",
    { file := "icons.csv",
      searchCols := ["Category", "Icon Name", "Keywords", "Best For"],
      outputCols := ["Category", "Icon Name", "Keywords", "Library", "Import Code",
        "Usage", "Best For", "Style"] }),
   ("react",
    { file := "react-performance.csv",
      searchCols := ["Category", "Issue", "Keywords", "Description"],
      outputCols := ["Category", "Issue", "Platform", "Description", "Do", "Don\x27t",
        "Code Example Good", "Code Example Bad", "Severity"] }),
   ("web",
    { file := "web-interface.csv",
      searchCols := ["Category", "Issue", "Keywords", "Description"],
      outputCols := ["Category", "Issue", "Platform", "Description", "Do", "Don\x27t",
        "Code Example Good", "Code Example Bad", "Severity"] }),
   ("ai-chat",
    { file := "ai-chat-patterns.csv",
      searchCols := ["Pattern_Name", "Category", "Description", "UX_Principle", "Use_Cases"],
      outputCols := ["Pattern_Name", "Category", "Description", "Visual_Design",
        "Interaction_Behavior", "Code_Example_Good", "UX_Principle",
        "Technical_Implementation", "Use_Cases", "Anti_Patterns", "Severity"] }),
   ("architecture",
    { file := "architecture.csv",
      searchCols := ["term", "description", "examples", "reasoning"],
      outputCols := ["term", "description", "examples", "code_example", "reasoning",
        "category", "priority"] })]

/-- Embedding of `STACK_CONFIG` (lines 99-114): stack name to backing
file. -/
def STACK_CONFIG : List (String × String) :=
  [("html-tailwind", "stacks/html-tailwind.csv"),
   ("react", "stacks/react.csv"),
   ("nextjs", "stacks/nextjs.csv"),
   ("vue", "stacks/vue.csv"),
   ("nuxtjs", "stacks/nuxtjs.csv"),
   ("nuxt-ui", "stacks/nuxt-ui.csv"),
   ("svelte", "stacks/svelte.csv"),
   ("swiftui", "stacks/swiftui.csv"),
   ("react-native", "stacks/react-native.csv"),
   ("flutter", "stacks/flutter.csv"),
   ("shadcn", "stacks/shadcn.csv"),
   ("jetpack-compose", "stacks/jetpack-compose.csv"),
   ("htmx-alpine-axum", "stacks/htmx-alpine-axum.csv"),
   ("tauri", "stacks/tauri.csv")]

/-- The search columns shared by all stacks (`_STACK_COLS`). -/
def stackSearchCols : List String := ["Category", "Guideline", "Description", "Do", "Don\x27t"]

/-- The output columns shared by all stacks (`_STACK_COLS`). -/
def stackOutputCols : List String :=
  ["Category", "Guideline", "Description", "Do", "Don\x27t", "Code Good", "Code Bad",
   "Severity", "Docs URL"]

/-- Embedding of `AVAILABLE_STACKS = list(STACK_CONFIG.keys())`. -/
def AVAILABLE_STACKS : List String := STACK_CONFIG.map Prod.fst

/-- Model of the Python substring test `needle in haystack`. -/
def containsSub (haystack needle : String) : Bool :=
  (List.range (haystack.toList.length + 1)).any
    (fun i => needle.toList.isPrefixOf (haystack.toList.drop i))

/-- Embedding of the keyword table of `detect_domain` (lines 224-238), in
source (dict insertion) order. -/
def domainKeywords : List (String × List String) :=
  [("color", ["color", "palette", "hex", "#", "rgb"]),
   ("chart", ["chart", "graph", "visualization", "trend", "bar", "pie", "scatter",
     "heatmap", "funnel"]),
   ("landing", ["landing", "page", "cta", "conversion", "hero", "testimonial",
     "pricing", "section"]),
   ("product", ["saas", "ecommerce", "e-commerce", "fintech", "healthcare", "gaming",
     "portfolio", "crypto", "dashboard"]),
   ("prompt", ["prompt", "css", "implementation", "variable", "checklist", "tailwind"]),
   ("style", ["style", "design", "ui", "minimalism", "glassmorphism", "neumorphism",
     "brutalism", "dark mode", "flat", "aurora"]),
   ("ux", ["ux", "usability", "accessibility", "wcag", "touch", "scroll", "animation",
     "keyboard", "navigation", "mobile"]),
   ("typography", ["font", "typography", "heading", "serif", "sans"]),
   ("icons", ["icon", "icons", "lucide", "heroicons", "symbol", "glyph", "pictogram",
     "svg icon"]),
   ("react", ["react", "next.js", "nextjs", "suspense", "memo", "usecallback",
     "useeffect", "rerender", "bundle", "waterfall", "barrel", "dynamic import", "rsc",
     "server component"]),
   ("web", ["aria", "focus", "outline", "semantic", "virtualize", "autocomplete",
     "form", "input type", "preconnect"]),
   ("ai-chat", ["ai", "chat", "chatbot", "streaming", "thinking", "reasoning",
     "tool execution", "citation", "confidence", "uncertainty", "conversation",
     "branching", "multi-modal", "feedback", "error recovery", "transparency", "trust",
     "ai interface", "llm", "gpt", "claude"]),
   ("architecture", ["architecture", "clean architecture", "hexagonal", "feature",
     "domain", "ddd", "domain-driven", "layer", "separation", "modular", "structure",
     "organization", "pattern", "boundary", "aggregate", "entity", "use case", "port",
     "adapter", "slice"])]

/-- Embedding of `detect_domain` (lines 220-242): count the keywords of
each domain occurring as substrings of the lowercased query, pick the first
domain with the highest count (Python `max` keeps the earliest maximum),
fall back to `style` when every count is zero. -/
def detectDomain (query : String) : String :=
  let ql := pyLower query
  let scores := domainKeywords.map (fun p => (p.1, p.2.countP (fun kw => containsSub ql kw)))
  match scores with
  | [] => "style"
  | s0 :: rest =>
    let best := rest.foldl (fun acc p => if acc.2 < p.2 then p else acc) s0
    if 0 < best.2 then best.1 else "style"

/-- The result dict of `search` / `search_stack`: either an error dict (the
message, plus the attempted domain or stack when the code records one) or a
result dict with the resolved domain, the optional stack, the query, the
backing file, the match count and the projected rows. -/
inductive SearchOutcome where
  | err (message : String) (selector : Option String)
  | ok (domain : String) (stack : Option String) (query : String) (file : String)
      (count : Nat) (results : List Record)

/-- Whether the outcome is an error dict. -/
def SearchOutcome.isErr : SearchOutcome → Bool
  | .err .. => true
  | .ok .. => false

/-- The backing file of a result dict, when the search succeeded. -/
def SearchOutcome.fileOf : SearchOutcome → Option String
  | .err .. => none
  | .ok _ _ _ file _ _ => some file

/-- The projected rows of a result dict, when the search succeeded. -/
def SearchOutcome.resultsOf : SearchOutcome → Option (List Record)
  | .err .. => none
  | .ok _ _ _ _ _ results => some results

/-- Embedding of `search` (lines 245-264): resolve the domain (auto-detect
when none is given), fetch the config with `CSV_CONFIG.get(domain,
CSV_CONFIG["style"])` — an unknown domain silently falls back to the style
config — then check the file and run the CSV pipeline. -/
noncomputable def search (dataOf : String → Option (List Record)) (query : String)
    (domain? : Option String) (maxResults : Nat) : SearchOutcome :=
  let domain := match domain? with
    | none => detectDomain query
    | some d => d
  let config := (CSV_CONFIG.lookup domain).getD styleConfig
  match dataOf config.file with
  | none => .err ("File not found: " ++ config.file) (some domain)
  | some data =>
    let results := searchCsvData data config.searchCols config.outputCols query maxResults
    .ok domain none query config.file results.length results

/-- Embedding of `search_stack` (lines 267-286): an unknown stack name is a
structured error naming the attempted stack and listing the available ones;
otherwise check the file and run the CSV pipeline over the shared stack
columns. -/
noncomputable def searchStack (dataOf : String → Option (List Record)) (query stack : String)
    (maxResults : Nat) : SearchOutcome :=
  match STACK_CONFIG.lookup stack with
  | none => .err ("Unknown stack: " ++ stack ++ ". Available: "
      ++ String.intercalate ", " AVAILABLE_STACKS) none
  | some file =>
    match dataOf file with
    | none => .err ("Stack file not found: " ++ file) (some stack)
    | some data =>
      let results := searchCsvData data stackSearchCols stackOutputCols query maxResults
      .ok "stack" (some stack) query file results.length results

/-! ## Claim C2 (corrected) -/

/-- A key that is not among the keys of an association list has no lookup
result. -/
theorem lookup_eq_none_of_not_mem {β : Type} (l : List (String × β)) (a : String)
    (h : a ∉ l.map Prod.fst) : l.lookup a = none := by
  induction l with
  | nil => rfl
  | cons p t ih =>
    simp only [List.map_cons, List.mem_cons] at h
    have hne : (a == p.1) = false := by
      rw [beq_eq_false_iff_ne]
      exact fun he => h (Or.inl he)
    rw [List.lookup, hne]
    exact ih (fun hx => h (Or.inr hx))

/-- Counterexample to claim C2 as stated: an explicit domain outside the
enumerated set does NOT produce a structured error — `search` silently
falls back to the style configuration (`CSV_CONFIG.get(domain,
CSV_CONFIG["style"])`) and searches `styles.csv`. -/
theorem unknownDomainFallsBack_counterexample :
    (search (fun f => if f = "styles.csv" then some [[("Style Category", "Minimal")]] else none)
        "hello" (some "bogus") 3).isErr = false
    ∧ (search (fun f => if f = "styles.csv" then some [[("Style Category", "Minimal")]] else none)
        "hello" (some "bogus") 3).fileOf = some "styles.csv" := by
  constructor <;> rfl

/-- Claim C2, amended: an explicit stack name outside the enumerated set
produces the structured error naming the attempted stack and listing the
valid options, with no fallback; but an explicit domain name outside the
enumerated set is silently routed to the style configuration — the search
behaves (error status, backing file, results) exactly as a search of the
style domain and reports no error. -/
theorem unknownSelectorHandling (dataOf : String → Option (List Record))
    (q stack domain : String) (k : Nat)
    (hs : stack ∉ AVAILABLE_STACKS) (hd : domain ∉ CSV_CONFIG.map Prod.fst) :
    searchStack dataOf q stack k
      = SearchOutcome.err ("Unknown stack: " ++ stack ++ ". Available: "
          ++ String.intercalate ", " AVAILABLE_STACKS) none
    ∧ (search dataOf q (some domain) k).isErr = (search dataOf q (some "style") k).isErr
    ∧ (search dataOf q (some domain) k).fileOf = (search dataOf q (some "style") k).fileOf
    ∧ (search dataOf q (some domain) k).resultsOf
        = (search dataOf q (some "style") k).resultsOf := by
  have hls : STACK_CONFIG.lookup stack = none := lookup_eq_none_of_not_mem _ _ hs
  have hld : CSV_CONFIG.lookup domain = none := lookup_eq_none_of_not_mem _ _ hd
  have hstyle : CSV_CONFIG.lookup "style" = some styleConfig := rfl
  refine ⟨?_, ?_⟩
  · rw [searchStack, hls]
  · have hdm : search dataOf q (some domain) k
        = (match dataOf styleConfig.file with
           | none => SearchOutcome.err ("File not found: " ++ styleConfig.file) (some domain)
           | some data =>
             SearchOutcome.ok domain none q styleConfig.file
               (searchCsvData data styleConfig.searchCols styleConfig.outputCols q k).length
               (searchCsvData data styleConfig.searchCols styleConfig.outputCols q k)) := by
      rw [search, hld]
      rfl
    have hsm : search dataOf q (some "style") k
        = (match dataOf styleConfig.file with
           | none => SearchOutcome.err ("File not found: " ++ styleConfig.file) (some "style")
           | some data =>
             SearchOutcome.ok "style" none q styleConfig.file
               (searchCsvData data styleConfig.searchCols styleConfig.outputCols q k).length
               (searchCsvData data styleConfig.searchCols styleConfig.outputCols q k)) := by
      rw [search, hstyle]
      rfl
    rw [hdm, hsm]
    cases dataOf styleConfig.file <;> exact ⟨rfl, rfl, rfl⟩

/-- Witness for the amended claim C2 at concrete unknown selectors. -/
theorem unknownSelectorHandling_witness :
    ("nextjs5" ∉ AVAILABLE_STACKS)
    ∧ ("bogus" ∉ CSV_CONFIG.map Prod.fst)
    ∧ searchStack (fun _ => none) "hello" "nextjs5" 3
        = SearchOutcome.err ("Unknown stack: " ++ "nextjs5" ++ ". Available: "
            ++ String.intercalate ", " AVAILABLE_STACKS) none
    ∧ (search (fun _ => none) "hello" (some "bogus") 3).isErr
        = (search (fun _ => none) "hello" (some "style") 3).isErr := by
  have h1 : "nextjs5" ∉ AVAILABLE_STACKS := by decide
  have h2 : "bogus" ∉ CSV_CONFIG.map Prod.fst := by decide
  have h := unknownSelectorHandling (fun _ => none) "hello" "nextjs5" "bogus" 3 h1 h2
  exact ⟨h1, h2, h.1, h.2.1⟩
